import Mathlib

/-!
Verification of the gd.py session layer (`src/gd/session.py`) and route
table (`src/gd/utils/routes.py`) against its natural-language
specification.  The Python code is shallowly embedded: pure computations
become Lean functions, raised exceptions become `Except` errors, and the
collaborators that are not part of the given sources (HTTP transport,
Parser, `check_logged_obj`, the field-index registry) are modelled from
the specification's description of them, as marked in their doc comments.
-/

namespace GD

/-- The error taxonomy of the library (spec section 4.2) together with the
Python runtime errors that the embedded code can raise. -/
inductive PyErr where
  | missingAccess (msg : String)
  | nothingFound (cls : String)
  | loginFailure
  | songRestricted (id : Int)
  | attributeError
  | valueError
  | keyError
  deriving DecidableEq, Repr

/-- Python values as they matter to the embedded session code: bare
integers (bare-integer response bodies) and text bodies. -/
inductive PyResp where
  | int (n : Int) : PyResp
  | str (s : String) : PyResp
  deriving DecidableEq, Repr

/-- Numeric value of a list of decimal digit characters. -/
def digitsVal (cs : List Char) : Nat :=
  cs.foldl (fun a c => a * 10 + (c.toNat - 48)) 0

/-- `s.isdigit()` of Python: nonempty and every character a decimal digit. -/
def pyIsDigit (s : String) : Bool :=
  let cs := s.toList
  !cs.isEmpty && cs.all Char.isDigit

/-- Python `int(s)` on a trimmed decimal string: an optional minus sign
followed by at least one digit; `none` models a raised `ValueError`. -/
def pyIntParse (s : String) : Option Int :=
  match s.toList with
  | '-' :: ds => if !ds.isEmpty && ds.all Char.isDigit then some (-(digitsVal ds : Int)) else none
  | ds => if !ds.isEmpty && ds.all Char.isDigit then some ((digitsVal ds : Int)) else none

/-- Python truthiness of a response value: `0` and `""` are falsy. -/
def pyTruthy : PyResp → Bool
  | .int n => n != 0
  | .str s => !s.isEmpty

/-- Auxiliary worker for `pySplit`, with explicit fuel (the fuel is always
sufficient because every step consumes at least one character). -/
def pySplitAux : Nat → List Char → List Char → List Char → List (List Char)
  | 0, _, _, acc => [acc.reverse]
  | _ + 1, _, [], acc => [acc.reverse]
  | fuel + 1, sep, c :: rest, acc =>
    if sep.isPrefixOf (c :: rest) then
      acc.reverse :: pySplitAux fuel sep ((c :: rest).drop sep.length) []
    else
      pySplitAux fuel sep rest (c :: acc)

/-- Python `s.split(sep)` for a nonempty separator: `"".split(sep) = [""]`
and a trailing separator produces a trailing empty piece, exactly as in
Python. -/
def pySplit (sep : String) (s : String) : List String :=
  (pySplitAux (s.length + 1) sep.toList s.toList []).map List.asString

/-! ## Route table (`src/gd/utils/routes.py`) -/

/-- The `Route` class of `src/gd/utils/routes.py`: every class attribute,
as `(attribute name, path literal)`, in source order. -/
def routeEntries : List (String × String) :=
  [ ("GET_USER_INFO", "getGJUserInfo20")
  , ("USER_SEARCH", "getGJUsers20")
  , ("DOWNLOAD_LEVEL", "downloadGJLevel22")
  , ("LEVEL_SEARCH", "getGJLevels21")
  , ("GET_SONG_INFO", "getGJSongInfo")
  , ("GET_FRIENDS", "getGJUserList20")
  , ("GET_COMMENTS", "getGJAccountComments20")
  , ("GET_PRIVATE_MESSAGES", "getGJMessages20")
  , ("READ_PRIVATE_MESSAGE", "downloadGJMessage20")
  , ("SEND_PRIVATE_MESSAGE", "uploadGJMessage20")
  , ("DELETE_PRIVATE_MESSAGE", "deleteGJMessages20")
  , ("GET_TIMELY", "getGJDailyLevel")
  , ("LOGIN", "accounts/loginGJAccount")
  , ("CAPTCHA", "accounts/captcha")
  , ("MANAGE_ACCOUNT", "accounts/accountManagement")
  , ("CHANGE_PASSWORD", "accounts/changepassword")
  , ("CHANGE_USERNAME", "accounts/changeusername")
  , ("DELETE_ACC_COMMENT", "deleteGJAccComment20")
  , ("DELETE_LEVEL_COMMENT", "deleteGJComment20")
  , ("UPLOAD_COMMENT", "uploadGJComment21")
  , ("UPLOAD_ACC_COMMENT", "uploadGJAccComment20")
  , ("UPDATE_ACC_SETTINGS", "updateGJAccSettings20")
  , ("GET_FRIEND_REQUESTS", "getGJFriendRequests20")
  , ("DELETE_REQUEST", "deleteGJFriendRequests20")
  , ("ACCEPT_REQUEST", "acceptGJFriendRequest20")
  , ("REQUEST_MODERATOR", "requestUserAccess")
  , ("GET_COMMENT_HISTORY", "getGJCommentHistory")
  ]

/-- Whether a path literal lacks a trailing slash (its last character is
not `'/'`). -/
def noTrailingSlash (s : String) : Bool :=
  s.toList.getLast? != some '/'

/-- Attribute lookup on the `Route` class: `Route.<name>` succeeds exactly
when `name` is one of the defined class attributes. -/
def routeLookup (name : String) : Option String :=
  (routeEntries.find? (fun e => e.1 == name)).map Prod.snd

/-- The attribute access `Route.<name>` as an expression: the path
literal when the attribute is defined, a raised `AttributeError`
otherwise (which is what happens for the two dozen names `session.py`
references that `routes.py` does not define). -/
def routeAttr (name : String) : Except PyErr String :=
  match routeLookup name with
  | some r => .ok r
  | none => .error .attributeError

/-- Every `Route.<NAME>` attribute name referenced in `src/gd/session.py`,
in order of first appearance (lines 76 through 1147). -/
def sessionRouteRefs : List String :=
  [ "GET_SONG_INFO", "NEWGROUNDS_SONG_LISTEN", "GET_USER_INFO", "USER_SEARCH"
  , "DOWNLOAD_LEVEL", "LEVEL_SEARCH", "GET_TIMELY", "UPLOAD_LEVEL"
  , "GET_USER_LIST", "GET_LEVEL_SCORES", "GET_USER_TOP", "LOGIN"
  , "GD_URL", "LOAD_DATA", "SAVE_DATA", "REPORT_LEVEL", "DELETE_LEVEL"
  , "UPDATE_LEVEL_DESC", "RATE_LEVEL_STARS", "RATE_LEVEL_DEMON"
  , "SUGGEST_LEVEL_STARS", "LIKE_ITEM", "GET_PRIVATE_MESSAGES"
  , "UPLOAD_ACC_COMMENT", "UPLOAD_COMMENT", "DELETE_LEVEL_COMMENT"
  , "DELETE_ACC_COMMENT", "SEND_REQUEST", "DELETE_REQUEST", "ACCEPT_REQUEST"
  , "READ_REQUEST", "READ_PRIVATE_MESSAGE", "DELETE_PRIVATE_MESSAGE"
  , "GET_GAUNTLETS", "GET_MAP_PACKS", "GET_FRIEND_REQUESTS"
  , "GET_COMMENT_HISTORY", "GET_ACC_COMMENTS", "GET_COMMENTS"
  , "UNBLOCK_USER", "BLOCK_USER", "REMOVE_FRIEND", "SEND_PRIVATE_MESSAGE"
  , "UPDATE_USER_SCORE", "UPDATE_ACC_SETTINGS"
  ]

/-- The backend path literals enumerated in spec section 6, in the order
the specification lists them (the specification-side list, for comparison
with the route table from the source). -/
def spec6Paths : List String :=
  [ "getGJUserInfo20", "getGJUsers20", "downloadGJLevel22", "getGJLevels21"
  , "getGJSongInfo", "getGJUserList20", "getGJAccountComments20"
  , "getGJMessages20", "downloadGJMessage20", "uploadGJMessage20"
  , "deleteGJMessages20", "getGJDailyLevel", "accounts/loginGJAccount"
  , "accounts/captcha", "accounts/accountManagement"
  , "accounts/changepassword", "accounts/changeusername"
  , "deleteGJAccComment20", "deleteGJComment20", "uploadGJComment21"
  , "uploadGJAccComment20", "updateGJAccSettings20", "getGJFriendRequests20"
  , "deleteGJFriendRequests20", "acceptGJFriendRequest20"
  , "requestUserAccess", "getGJCommentHistory"
  ]

/-! ## `run_many` (`src/gd/session.py` lines 1151-1167) -/

/-- A Python value as returned by one task of a `run_many` fan-out: an
integer or a (possibly nested) list. -/
inductive PyVal where
  | vint (n : Int) : PyVal
  | vlist (xs : List PyVal) : PyVal

/-- Python truthiness on task results: `0` and `[]` are falsy (the
condition of the comprehension `[elem for elem in res if elem]`). -/
def pyValTruthy : PyVal → Bool
  | .vint n => n != 0
  | .vlist xs => !xs.isEmpty

/-- `_iterable(elem)` of `session.py`: `iter(elem)` succeeds on lists and
raises on integers. -/
def pyIterable : PyVal → Bool
  | .vint _ => false
  | .vlist _ => true

/-- The elements an iterable value yields, as consumed by
`itertools.chain.from_iterable` (integers are never iterated: `run_many`
only chains after checking `_iterable`). -/
def pyElems : PyVal → List PyVal
  | .vint _ => []
  | .vlist xs => xs

/-- `GDSession.run_many`, applied to the gathered task results: drop falsy
results, then flatten one level via `chain.from_iterable` when every
remaining result is iterable. -/
def runMany (results : List PyVal) : List PyVal :=
  let res := results.filter pyValTruthy
  if res.all pyIterable then res.flatMap pyElems else res

/-! ## `upload_level` password computation (`src/gd/session.py` 275-283) -/

/-- The `password` argument of `upload_level`: `None`, an `int`, or a
`str` (its declared type is `Optional[Union[int, str]]`). -/
inductive PwdArg where
  | noneP : PwdArg
  | intP (n : Int) : PwdArg
  | strP (s : String) : PwdArg
  deriving DecidableEq, Repr

/-- Python `str(password)`: `str(None) = "None"`, integers print in
decimal, strings are themselves. -/
def pwdStr : PwdArg → String
  | .noneP => "None"
  | .intP n => toString n
  | .strP s => s

/-- The numeric value `int(password)` reached by `upload_level` when
`str(password).isdigit()` holds (for such arguments `int(password)` and
`int(str(password))` agree). -/
def pwdVal (p : PwdArg) : Nat := digitsVal (pwdStr p).toList

/-- The password field computed by `upload_level`: starts at `0`, becomes
`1` for a copyable level with no password, then is overridden with
`1000000 + int(password)` when `str(password).isdigit()` and
`int(str(password)) < 1000000`. -/
def uploadPwd (copyable : Bool) (password : PwdArg) : Nat :=
  let pwd : Nat := if copyable && password == PwdArg.noneP then 1 else 0
  let check := pwdStr password
  let add := 1000000
  if pyIsDigit check && decide (digitsVal check.toList < add) then add + pwdVal password
  else pwd

/-- The password field as claim C3 words it: `1000000` plus the numeric
password whenever the given password is purely numeric (no bound), `1`
for copyable with no password, `0` otherwise. -/
def claimedUploadPwd (copyable : Bool) (password : PwdArg) : Nat :=
  if pyIsDigit (pwdStr password) then 1000000 + pwdVal password
  else if copyable && password == PwdArg.noneP then 1
  else 0

/-- The amended description: as the claim, but the numeric override also
requires the numeric password to be below `1000000`. -/
def amendedUploadPwd (copyable : Bool) (password : PwdArg) : Nat :=
  if pyIsDigit (pwdStr password) && decide (pwdVal password < 1000000) then
    1000000 + pwdVal password
  else if copyable && password == PwdArg.noneP then 1
  else 0

/-! ## HTTP transport and parser collaborators

The transport wrapper (`utils/http_request.py`), the response parser
(`utils/parser.py`), the field-index registry (`utils/indexer.py`) and
`check_logged_obj` (`utils/decorators.py`) are not among the given
sources; they are modelled from the specification as marked below. -/

/-- Modelled from the spec: `http.request` of section 4.10 — after
receiving the raw text body, a bare-integer body matching a key of
`error_codes` raises the mapped error when `raise_errors` is true;
otherwise the text body (or the bare integer) is returned unchanged. -/
def httpTranslate (codes : List (Int × PyErr)) (raiseErrors : Bool) (body : String) :
    Except PyErr PyResp :=
  match pyIntParse body with
  | some n =>
    match codes.find? (fun c => c.1 == n) with
    | some c => if raiseErrors then .error c.2 else .ok (.int n)
    | none => .ok (.int n)
  | none => .ok (.str body)

/-- Calling a `str` method (such as `.split`) on a reply that the
transport already turned into a bare integer raises `AttributeError`. -/
def asStr : PyResp → Except PyErr String
  | .int _ => .error .attributeError
  | .str s => .ok s

/-- `map(int, pieces)` of Python: every piece must parse as an integer,
otherwise `ValueError` is raised (modelled as `none`). -/
def parseInts (pieces : List String) : Option (List Int) :=
  pieces.mapM pyIntParse

/-- `resp.split('#')` followed by `take(0)` / `.pop(0)`: the first
`#`-section of a reply (`split` of any string is nonempty). -/
def firstSection (s : String) : String :=
  (pySplit "#" s).headD ""

/-- Modelled from the spec: the parser's `check_empty()` applied to a
post-split list value — the split of an empty input (`[]` or `[""]`)
short-circuits the pipeline to the "no result" sentinel (section 4.8 and
testable property 6: an empty raw response yields the sentinel). -/
def emptySplit (l : List String) : Bool :=
  l.isEmpty || l == [""]

/-- One dictionary update `m[k] = v` (later assignments override). -/
def dictSet (m : List (String × Option String)) (k : String) (v : Option String) :
    List (String × Option String) :=
  if m.any (fun e => e.1 == k) then m.map (fun e => if e.1 == k then (k, v) else e)
  else m ++ [(k, v)]

/-- Python `m.get(k)`: the stored value, or `None` when absent. -/
def dictGet (m : List (String × Option String)) (k : String) : Option String :=
  match m.find? (fun e => e.1 == k) with
  | some e => e.2
  | none => none

/-- Worker for `mapPairs`: consume the tokens two at a time, later
assignments overriding earlier ones. -/
def mapPairsAux (m : List (String × Option String)) :
    List String → List (String × Option String)
  | k :: v :: rest => mapPairsAux (dictSet m k (some v)) rest
  | _ => m

/-- Modelled from the spec: `should_map()` of section 4.8 — the final
split's tokens are folded pairwise into a key-to-value mapping (keys kept
as their raw tokens; the registry's integer keys correspond one-to-one to
their decimal tokens). -/
def mapPairs (tokens : List String) : List (String × Option String) :=
  mapPairsAux [] tokens

/-- Modelled from the spec: the field-index registry (section 4.1) as the
decimal tokens of its small integer keys; the concrete integers are those
of the game's wire format. -/
def idxUserName : String := "1"

/-- Field-index registry: the user's player id. -/
def idxUserPlayerId : String := "2"

/-- Field-index registry: the user's icon. -/
def idxUserIcon : String := "9"

/-- Field-index registry: the user's icon type. -/
def idxUserIconType : String := "14"

/-! ## Session listing operations (claim C4) -/

/-- `GDSession.get_page_messages` (lines 696-727), up to the per-record
conversion: the list of raw `|`-delimited message records, an empty list
on the parser's empty sentinel, or a raised error. -/
def getPageMessages (raiseErrors : Bool) (body : String) : Except PyErr (List String) := do
  let _route ← routeAttr "GET_PRIVATE_MESSAGES"
  let resp ← httpTranslate
    [(-1, .missingAccess "Failed to get messages."), (-2, .nothingFound "gd.Message")]
    raiseErrors body
  let s ← asStr resp
  let sec := firstSection s
  if sec == "" then return []
  else return (pySplit "|" sec)

/-- `GDSession.get_page_friend_requests` (lines 919-949), up to the
per-record conversion. -/
def getPageFriendRequests (raiseErrors : Bool) (body : String) : Except PyErr (List String) := do
  let _route ← routeAttr "GET_FRIEND_REQUESTS"
  let resp ← httpTranslate
    [ (-1, .missingAccess "Failed to get friend requests on page 0.")
    , (-2, .nothingFound "gd.FriendRequest")] raiseErrors body
  let s ← asStr resp
  let l := pySplit "|" (firstSection s)
  if emptySplit l then return []
  else return l

/-- `GDSession.get_page_map_packs` (lines 890-908), up to the per-record
conversion.  The request site (line 896) reads `Route.GET_MAP_PACKS`,
which `routes.py` does not define, so every call raises
`AttributeError` before the request is issued; the remainder of the
function (no `error_codes` map; `NothingFound` on an empty parse when
`raise_errors` is true) is unreachable. -/
def getPageMapPacks (raiseErrors : Bool) (body : String) : Except PyErr (List String) := do
  let _route ← routeAttr "GET_MAP_PACKS"
  let resp ← httpTranslate [] raiseErrors body
  let s ← asStr resp
  let l := pySplit "|" (firstSection s)
  if emptySplit l then
    if raiseErrors then Except.error (.nothingFound "gd.MapPack")
    else return []
  else return l

/-- `GDSession.retrieve_page_comments` (lines 964-1012), up to the
per-record conversion; `isLevel` is `type == 'level'`.  The route
conditional at line 976 reads `Route.GET_COMMENT_HISTORY` (defined) for
the level variant but `Route.GET_ACC_COMMENTS` (undefined — an
`AttributeError` before the request) for the profile variant.  The
variants share the emptiness control flow (the per-record parser
configurations differ only in how records are decomposed): an empty
body yields `[]`, but an empty first `#`-section of a nonempty body
raises `NothingFound` when `raise_errors` is true. -/
def retrievePageComments (isLevel : Bool) (raiseErrors : Bool) (body : String) :
    Except PyErr (List String) := do
  let _route ← routeAttr (if isLevel then "GET_COMMENT_HISTORY" else "GET_ACC_COMMENTS")
  let resp ← httpTranslate
    [(-1, .missingAccess "Failed to retrieve comments for the user.")] raiseErrors body
  if !pyTruthy resp then return []
  else do
    let s ← asStr resp
    let sec := firstSection s
    if sec == "" then
      if raiseErrors then Except.error (.nothingFound "gd.Comment")
      else return []
    else return (pySplit "|" sec)

/-- `GDSession.get_leaderboard` (lines 349-375), up to the per-record
conversion.  The request site (line 363) reads
`Route.GET_LEVEL_SCORES`, which `routes.py` does not define, so every
call raises `AttributeError` before the request; the reply handling (an
empty reply yields an empty list, otherwise the nonempty `|`-delimited
records) is unreachable. -/
def getLeaderboardRecords (body : String) : Except PyErr (List String) := do
  let _route ← routeAttr "GET_LEVEL_SCORES"
  let resp ← httpTranslate
    [(-1, .missingAccess "Failed to get leaderboard of the level.")] true body
  if !pyTruthy resp then return []
  else do
    let s ← asStr resp
    return ((pySplit "|" s).filter (fun r => !r.isEmpty))

/-! ## `load_save` (claim C5, lines 427-450) -/

/-- The body of `load_save`'s `try` block, given the already-fetched
reply: split on `;` into main/levels (the unpacking needs at least two
pieces), then build and parse the save and write it onto the client —
abstracted as the `saveParse` oracle since the save machinery
(`api.save.from_string_async`, `SaveParser.aio_parse`) is outside the
given sources.  Every exception inside the block is caught, so the result
is always a boolean: `False` on any failure, `True` on success. -/
def loadSaveCore (saveParse : String → String → Bool) (resp : PyResp) : Bool :=
  match resp with
  | .int _ => false
  | .str s =>
    match pySplit ";" s with
    | main :: levels :: _ => saveParse main levels
    | _ => false

/-- `GDSession.load_save`: the first statement (line 428) reads
`Route.GD_URL` and the fetch (line 438) reads `Route.LOAD_DATA`,
neither of which `routes.py` defines — so every call raises
`AttributeError` at line 428, before the fetch and before the `try`
block at line 440.  Both the fetch (whose `-11`-coded errors would
propagate, being outside the `try`) and `loadSaveCore` are
unreachable. -/
def loadSave (saveParse : String → String → Bool) (body : String) : Except PyErr Bool := do
  let _link ← routeAttr "GD_URL"
  let _route ← routeAttr "LOAD_DATA"
  let resp ← httpTranslate
    [(-11, .missingAccess "Failed to load data for the client.")] true body
  return loadSaveCore saveParse resp

/-! ## `read_message` (claim C6, lines 845-863) -/

/-- `GDSession.read_message`, given the raw reply of a successful
request.  After the fetch, the code executes
`resp = Parser().with_split(':').should_map()`, rebinding `resp` to the
parser object itself — the reply is never passed to `.parse`.  The next
line calls `resp.get(Index.MESSAGE_BODY)` on that parser object; the
parser's operations are `split`/`with_split`, `take`, `check_empty`,
`should_map`, `add_ext` and `parse` (spec section 4.8) — it has no `get`
— so the attribute lookup raises `AttributeError` before anything is
decoded or cached. -/
def readMessage (body : String) : Except PyErr String := do
  let _resp ← httpTranslate
    [(-1, .missingAccess "Failed to read a message.")] true body
  Except.error PyErr.attributeError

/-! ## `get_timely` (claim C7, lines 243-258 and 195-210) -/

/-- `GDSession.get_timely`, up to the `get_level` call it makes: returns
the level id passed to `get_level` together with the timetuple
`(type, number, cooldown)`.  `w` is the index of the type in
`('daily', 'weekly')` (`ValueError` otherwise); an empty reply raises
`MissingAccess`; the reply is split on `|` and its pieces parsed as
integers (`num, cooldown, *_` needs at least two); `num` is reduced
modulo `100000` and `w` incremented before the call `get_level(-w, (w,
num, cooldown))`. -/
def getTimely (ty : String) (body : String) : Except PyErr (Int × Int × Int × Int) := do
  let w ←
    if ty == "daily" then Except.ok (0 : Int)
    else if ty == "weekly" then Except.ok 1
    else Except.error PyErr.valueError
  let resp ← httpTranslate
    [(-1, .missingAccess "Failed to fetch a timely level.")] true body
  if !pyTruthy resp then
    Except.error (.missingAccess "Failed to fetch a timely level. Most likely it is being refreshed.")
  else do
    let s ← asStr resp
    match parseInts (pySplit "|" s) with
    | some (num :: cooldown :: _) =>
      let num := num % 100000
      let w := w + 1
      return (-w, w, num, cooldown)
    | _ => Except.error PyErr.valueError

/-- The synthetic fields `get_level` injects from its `timetuple`
argument (line 201): `{101: type, 102: number, 103: cooldown}`. -/
def getLevelExt (tt : Int × Int × Int) : List (Int × Int) :=
  [(101, tt.1), (102, tt.2.1), (103, tt.2.2)]

/-! ## `rate_demon` (claim C9, lines 624-644) -/

/-- `GDSession.rate_demon`: the request site (line 639) reads
`Route.RATE_LEVEL_DEMON`, which `routes.py` does not define, so every
call raises `AttributeError` before the request is issued.  The reply
handling that follows — code `-2` mapped to `MissingAccess`, `False`
for a falsy reply, `True` for a positive integer reply, Python's `None`
(modelled as `Option.none`) falling off the end for anything else — is
unreachable. -/
def rateDemon (body : String) : Except PyErr (Option Bool) := do
  let _route ← routeAttr "RATE_LEVEL_DEMON"
  let resp ← httpTranslate
    [(-2, .missingAccess "Attempt to rate as mod without mod permissions.")] true body
  if !pyTruthy resp then return (some false)
  else
    match resp with
    | .int n => if n > 0 then return (some true) else return Option.none
    | .str _ => return Option.none

/-! ## `search_levels_on_page` (claim C8, lines 471-552) -/

/-- The search strategies the session layer special-cases, plus the
remaining ones (spec section 4.3). -/
inductive SearchStrategy where
  | regular : SearchStrategy
  | byUser : SearchStrategy
  | friends : SearchStrategy
  | other (n : Nat) : SearchStrategy
  deriving DecidableEq, Repr

/-- The strategy's serialized tag inside the filter parameters (its exact
wire value is irrelevant to the claims). -/
def strategyTag : SearchStrategy → String
  | .regular => "regular"
  | .byUser => "by_user"
  | .friends => "friends"
  | .other n => toString n

/-- The fields of the `Client` object that the session operations
consult. -/
structure ClientObj where
  loggedIn : Bool
  accountId : Int
  userId : Int
  encodedpass : String
  deriving DecidableEq, Repr

/-- Modelled from the spec: `check_logged_obj` (`utils/decorators.py`) —
the "must be logged in" condition checked before a request is issued
(spec sections 4.13 and 8.11), raising `MissingAccess` for a client that
is not logged in. -/
def checkLoggedObj (c : ClientObj) (opName : String) : Except PyErr Unit :=
  if c.loggedIn then Except.ok ()
  else Except.error (.missingAccess ("Client is not logged in. Cannot call " ++ opName ++ "."))

/-- `params.put_definer(key, value)` and friends: later insertions of an
existing key override it (used by the BY_USER branch to override the
`search` field). -/
def paramSet (ps : List (String × String)) (k v : String) : List (String × String) :=
  if ps.any (fun e => e.1 == k) then ps.map (fun e => if e.1 == k then (k, v) else e)
  else ps ++ [(k, v)]

/-- Everything `search_levels_on_page` does before issuing the network
request: builds the base parameters, then branches on the filter
strategy — BY_USER with no explicit user requires a logged-in client,
injects auth and the local flag and overrides the search field with the
client's own id; BY_USER with an explicit user overrides with that id;
FRIENDS requires a logged-in client and injects auth; an explicit
gauntlet id adds a gauntlet field. -/
def searchPrepare (strategy : SearchStrategy) (page : Int) (query : String)
    (user : Option Int) (gauntlet : Option Int) (c : ClientObj) :
    Except PyErr (List (String × String)) := do
  let params : List (String × String) :=
    [ ("search", query), ("page", toString page), ("total", "0")
    , ("strategy", strategyTag strategy)]
  let params ←
    if strategy == SearchStrategy.byUser then
      match user with
      | Option.none => do
        checkLoggedObj c "search_levels_on_page(...)"
        let id := c.userId
        let params := paramSet params "accountid" (toString c.accountId)
        let params := paramSet params "gjp" c.encodedpass
        let params := paramSet params "local" "1"
        pure (paramSet params "search" (toString id))
      | some u => pure (paramSet params "search" (toString u))
    else if strategy == SearchStrategy.friends then do
      checkLoggedObj c "search_levels_on_page(..., client=client)"
      let params := paramSet params "accountid" (toString c.accountId)
      pure (paramSet params "gjp" c.encodedpass)
    else
      pure params
  match gauntlet with
  | some g => return paramSet params "gauntlet" (toString g)
  | Option.none => return params

/-- `GDSession.search_levels_on_page`, up to the per-level conversion:
the first component records whether the network request was issued at
all; the second is the outcome — the raised error, or the nonempty raw
level records of the reply's first `#`-section (an empty reply gives an
empty list, and a reply with fewer than three `#`-sections fails the
`lvdata, cdata, sdata = resp[:3]` unpacking). -/
def searchLevelsOnPage (strategy : SearchStrategy) (page : Int) (query : String)
    (user : Option Int) (gauntlet : Option Int) (c : ClientObj)
    (raiseErrors : Bool) (body : String) : Bool × Except PyErr (List String) :=
  match searchPrepare strategy page query user gauntlet c with
  | .error e => (false, .error e)
  | .ok _params =>
    (true, do
      let resp ← httpTranslate [(-1, .missingAccess "No levels were found.")] raiseErrors body
      if !pyTruthy resp then return []
      else do
        let s ← asStr resp
        match pySplit "#" s with
        | lvdata :: _cdata :: _sdata :: _ =>
          return ((pySplit "|" lvdata).filter (fun r => !r.isEmpty))
        | _ => Except.error PyErr.valueError)

/-! ## `get_user` (claim C10, lines 110-142) -/

/-- The possible outcomes of `get_user`: a `UserStats` conversion of the
primary reply, a full `User` built from the merged field map, or
Python's `None` (the bare `return` on the empty-search sentinel). -/
inductive UserOut where
  | stats (m : List (String × Option String)) : UserOut
  | user (m : List (String × Option String)) : UserOut
  | nothing : UserOut
  deriving DecidableEq, Repr

/-- The merge step of `get_user` (lines 138-140): the name, icon and
icon-type fields of the secondary search reply are copied over the
primary profile map (`resp.update({k: new_resp.get(k) for k in ...})`). -/
def mergeUserFields (m m2 : List (String × Option String)) :
    List (String × Option String) :=
  dictSet
    (dictSet
      (dictSet m idxUserName (dictGet m2 idxUserName))
      idxUserIcon (dictGet m2 idxUserIcon))
    idxUserIconType (dictGet m2 idxUserIconType)

/-- `GDSession.get_user`, given the primary (`GET_USER_INFO`) and
secondary (`USER_SEARCH`) reply bodies: the primary reply is parsed into
a `:`-map; with `return_only_stats` it is converted as stats; otherwise
the secondary reply's first `#`-section is parsed with `check_empty` —
the sentinel makes the whole operation return `None` — and on a nonempty
section the name/icon/icon-type fields are merged before the `User`
conversion. -/
def getUser (returnOnlyStats : Bool) (primary secondary : String) : Except PyErr UserOut := do
  let resp ← httpTranslate
    [(-1, .missingAccess "No users were found with that ID.")] true primary
  let s ← asStr resp
  let m := mapPairs (pySplit ":" s)
  if returnOnlyStats then return .stats m
  else do
    let resp2 ← httpTranslate [] true secondary
    let s2 ← asStr resp2
    let sec := firstSection s2
    if sec == "" then return .nothing
    else
      let m2 := mapPairs (pySplit ":" sec)
      return .user (mergeUserFields m m2)

/-! ## Claims -/

/-- C1: the claim asserts that every `Route.<NAME>` attribute referenced
in `session.py` is defined in the `Route` class, naming `GET_USER_LIST`
(used by `get_user_list`) in particular; but `GET_USER_LIST` is
referenced and not defined. -/
theorem C1_missing_route_counterexample :
    "GET_USER_LIST" ∈ sessionRouteRefs ∧ routeLookup "GET_USER_LIST" = none := by
  decide

/-- C1 (amended): every route literal defined in the `Route` class
matches the backend path of spec section 6 exactly — the defined
literals are precisely the section-6 enumeration, in order,
case-sensitive and with no trailing slash — but the route table does not
define every route the session orchestrator references: in particular
`GET_USER_LIST` (used by `get_user_list`) and `GET_LEVEL_SCORES` (used by
`get_leaderboard`) are referenced in `session.py` and absent from the
`Route` class. -/
theorem C1_route_table_amended :
    routeEntries.map Prod.snd = spec6Paths
    ∧ routeEntries.all (fun e => noTrailingSlash e.2) = true
    ∧ "GET_USER_LIST" ∈ sessionRouteRefs
    ∧ routeLookup "GET_USER_LIST" = none
    ∧ "GET_LEVEL_SCORES" ∈ sessionRouteRefs
    ∧ routeLookup "GET_LEVEL_SCORES" = none := by
  refine ⟨by decide, by decide, by decide, by decide, by decide, by decide⟩

/-- C2: `run_many` first drops every falsy result; exactly when every
remaining result is iterable it flattens one level and returns the
concatenation, and otherwise it returns the filtered list unchanged; in
particular results `[[], [1, 2], [3]]` yield `[1, 2, 3]`, results
`[1, 2, 3]` yield `[1, 2, 3]` unflattened, and only one level of nesting
is removed. -/
theorem C2_run_many :
    (∀ results : List PyVal,
      runMany results =
        if (results.filter pyValTruthy).all pyIterable then
          (results.filter pyValTruthy).flatMap pyElems
        else results.filter pyValTruthy)
    ∧ runMany [.vlist [], .vlist [.vint 1, .vint 2], .vlist [.vint 3]]
        = [.vint 1, .vint 2, .vint 3]
    ∧ runMany [.vint 1, .vint 2, .vint 3] = [.vint 1, .vint 2, .vint 3]
    ∧ runMany [.vlist [.vlist [.vint 1]], .vlist [.vint 2]]
        = [.vlist [.vint 1], .vint 2] :=
  ⟨fun _ => rfl, rfl, rfl, rfl⟩

/-- C3: the claim's password formula — `1000000` plus the numeric
password whenever the given password is purely numeric — disagrees with
`upload_level` at `copyable = False`, `password = 1000000`: the code
computes `0` (the numeric override requires `int(password) < 1000000`),
the claim computes `2000000`. -/
theorem C3_password_counterexample :
    uploadPwd false (.intP 1000000) = 0
    ∧ claimedUploadPwd false (.intP 1000000) = 2000000
    ∧ uploadPwd false (.intP 1000000) ≠ claimedUploadPwd false (.intP 1000000) := by
  refine ⟨by decide, by decide, by decide⟩

/-- C3 (amended): `upload_level` computes the password field as `1000000`
plus the numeric password when the given password is purely numeric AND
its value is below `1000000`; otherwise `1` for a copyable level with no
password and `0` in every remaining case — in particular
`copyable=True, password=None` gives `1`; `copyable=False,
password=None` gives `0`; `password=42` gives `1000042`. -/
theorem C3_password_amended :
    (∀ (copyable : Bool) (password : PwdArg),
      uploadPwd copyable password = amendedUploadPwd copyable password)
    ∧ uploadPwd true .noneP = 1
    ∧ uploadPwd false .noneP = 0
    ∧ uploadPwd false (.intP 42) = 1000042
    ∧ uploadPwd true (.intP 42) = 1000042
    ∧ uploadPwd true (.strP "42") = 1000042
    ∧ uploadPwd true (.strP "not a number") = 0 :=
  ⟨fun _ _ => rfl, by decide, by decide, by decide, by decide, by decide, by decide⟩

/-- C4: the claim asserts that a reply indicating no data (empty body or
a `check_empty`-style short-circuit) yields an empty list with no error
unless a negative code mapped to `NothingFound` is received; but
`retrieve_page_comments` on levels (the variant whose route,
`GET_COMMENT_HISTORY`, is defined), given a nonempty reply whose first
`#`-section is empty, raises `NothingFound` with `raise_errors` true
(its default) even though no negative code is involved. -/
theorem C4_level_comments_counterexample :
    retrievePageComments true true "#x" = .error (.nothingFound "gd.Comment") := rfl

/-- C4 (amended): the listing operations that actually issue their
request treat an empty reply as "no results" — messages, friend
requests and searches return an empty list with no error, and absence
signalled by a mapped negative code raises `NothingFound` — except that
`retrieve_page_comments` on levels raises `NothingFound` on an empty
first `#`-section of a nonempty reply when `raise_errors` is true,
returning the empty list only when `raise_errors` is false; and
`get_page_map_packs`, `get_leaderboard` and the profile variant of
`retrieve_page_comments` never reach a reply at all: they raise
`AttributeError` on an undefined `Route` attribute before the request
is issued. -/
theorem C4_empty_reply_amended :
    getPageMessages true "" = .ok []
    ∧ getPageMessages true "-2" = .error (.nothingFound "gd.Message")
    ∧ getPageFriendRequests true "" = .ok []
    ∧ getPageFriendRequests true "-2" = .error (.nothingFound "gd.FriendRequest")
    ∧ (searchLevelsOnPage .regular 0 "" Option.none Option.none
        ⟨false, 0, 0, ""⟩ true "").2 = .ok []
    ∧ retrievePageComments true true "" = .ok []
    ∧ retrievePageComments true true "#x" = .error (.nothingFound "gd.Comment")
    ∧ retrievePageComments true false "#x" = .ok []
    ∧ (∀ (raiseErrors : Bool) (body : String),
        getPageMapPacks raiseErrors body = .error .attributeError)
    ∧ (∀ body : String, getLeaderboardRecords body = .error .attributeError)
    ∧ (∀ (raiseErrors : Bool) (body : String),
        retrievePageComments false raiseErrors body = .error .attributeError) :=
  ⟨rfl, rfl, rfl, rfl, rfl, rfl, rfl, rfl,
   fun _ _ => rfl, fun _ => rfl, fun _ _ => rfl⟩

/-- C5: the claim says `load_save` returns a boolean success flag with
any failure anywhere in its pipeline swallowed and reported as `False`;
but the function's first statement reads the undefined `Route.GD_URL`
attribute (and its fetch would read the equally undefined
`Route.LOAD_DATA`), so every call raises `AttributeError` before the
fetch and before the `try` block: no fetch is issued and no boolean is
ever returned, whatever the backend would have replied and whatever the
save parser would have done. -/
theorem C5_load_save_route_bug :
    (∀ (saveParse : String → String → Bool) (body : String),
      loadSave saveParse body = .error .attributeError)
    ∧ loadSave (fun _ _ => true) "-11" = .error .attributeError
    ∧ loadSave (fun _ _ => true) "a;b;c" = .error .attributeError :=
  ⟨fun _ _ => rfl, rfl, rfl⟩

/-- C6: the claim says `read_message` parses the reply into a
`:`-delimited field map, decodes the body and caches it; but the code
rebinds `resp` to the parser object without ever calling `.parse(resp)`
and then calls `.get` on that parser, which has no such operation — the
operation raises `AttributeError` on every successful reply and never
returns a decoded body. -/
theorem C6_read_message_never_returns_body :
    readMessage "2:SGVsbG8h:3:0" = .error .attributeError
    ∧ ∀ body : String, ∃ e : PyErr, readMessage body = .error e := by
  refine ⟨rfl, fun body => ?_⟩
  unfold readMessage
  cases httpTranslate [((-1 : Int), PyErr.missingAccess "Failed to read a message.")] true body
  case error e => exact ⟨e, rfl⟩
  case ok r => exact ⟨.attributeError, rfl⟩

/-- C7: `get_timely('daily')` on a reply of the form
`index|cooldown|...` reduces the number modulo `100000` and fetches the
level with id the negative of (index + 1), passing the timetuple
`(index + 1, number mod 100000, cooldown)` — on the reply `"5|300|7"`, a
level fetch for id `-1` with type `1`, number `5`, cooldown `300`, and
the timetuple injected as the synthetic fields 101-103. -/
theorem C7_get_timely :
    getTimely "daily" "5|300|7" = .ok (-1, 1, 5, 300)
    ∧ getLevelExt (1, 5, 300) = [(101, 1), (102, 5), (103, 300)]
    ∧ (∀ (body : String) (num cooldown : Int) (rest : List Int),
        pyIntParse body = none →
        parseInts (pySplit "|" body) = some (num :: cooldown :: rest) →
        body ≠ "" →
        getTimely "daily" body = .ok (-1, 1, num % 100000, cooldown))
    ∧ (∀ (body : String) (num cooldown : Int) (rest : List Int),
        pyIntParse body = none →
        parseInts (pySplit "|" body) = some (num :: cooldown :: rest) →
        body ≠ "" →
        getTimely "weekly" body = .ok (-2, 2, num % 100000, cooldown)) := by
  refine ⟨rfl, rfl, ?_, ?_⟩ <;>
  · intro body num cooldown rest h1 h2 h3
    have hE : body.isEmpty = false := by
      rw [Bool.eq_false_iff]
      intro h
      exact h3 ((String.isEmpty_iff body).mp h)
    simp [getTimely, httpTranslate, h1, h2, asStr, pyTruthy, hE, Bind.bind, Except.bind,
      Pure.pure, Except.pure]

/-- C7 witness: the general part of `C7_get_timely` applied to the
concrete reply `"5|300|7"`. -/
theorem C7_get_timely_witness :
    getTimely "daily" "5|300|7" = .ok (-1, 1, 5 % 100000, 300) :=
  C7_get_timely.2.2.1 "5|300|7" 5 300 [7] rfl rfl (by decide)

/-- C8: `search_levels_on_page` with the BY_USER strategy and no
explicit user, on a client that is not logged in, fails with the "must
be logged in" condition with no network request issued (the first
component records whether the request was issued); likewise the FRIENDS
strategy, whatever the user argument. -/
theorem C8_search_requires_login :
    ∀ (page : Int) (query : String) (gauntlet : Option Int) (c : ClientObj) (body : String),
      c.loggedIn = false →
      (searchLevelsOnPage .byUser page query Option.none gauntlet c true body
          = (false, .error (.missingAccess
              "Client is not logged in. Cannot call search_levels_on_page(...).")))
      ∧ ∀ user : Option Int,
          searchLevelsOnPage .friends page query user gauntlet c true body
            = (false, .error (.missingAccess
                "Client is not logged in. Cannot call search_levels_on_page(..., client=client).")) := by
  intro page query gauntlet c body h
  constructor
  · simp [searchLevelsOnPage, searchPrepare, checkLoggedObj, h, Bind.bind, Except.bind,
      Pure.pure, Except.pure]
  · intro user
    simp [searchLevelsOnPage, searchPrepare, checkLoggedObj, h, Bind.bind, Except.bind,
      Pure.pure, Except.pure]

/-- C8 witness: `C8_search_requires_login` applied to a concrete
logged-out client. -/
theorem C8_search_requires_login_witness :
    searchLevelsOnPage .byUser 0 "" Option.none Option.none ⟨false, 0, 0, ""⟩ true "x"
      = (false, .error (.missingAccess
          "Client is not logged in. Cannot call search_levels_on_page(...)."))
    ∧ searchLevelsOnPage .friends 0 "" (some 5) Option.none ⟨false, 0, 0, ""⟩ true "x"
      = (false, .error (.missingAccess
          "Client is not logged in. Cannot call search_levels_on_page(..., client=client).")) :=
  ⟨(C8_search_requires_login 0 "" Option.none ⟨false, 0, 0, ""⟩ "x" rfl).1,
   (C8_search_requires_login 0 "" Option.none ⟨false, 0, 0, ""⟩ "x" rfl).2 (some 5)⟩

/-- C9: the claim reads three-valued reply handling off `rate_demon`'s
branches — `False` for empty/zero, `True` for positives,
`MissingAccess` raised on `-2`, `None` for other negatives; but the
request site reads the undefined `Route.RATE_LEVEL_DEMON` attribute, so
every call raises `AttributeError` before the request is issued: the
function never returns `True`, `False` or `None` and never raises
`MissingAccess`, whatever the backend would have replied. -/
theorem C9_rate_demon_route_bug :
    (∀ body : String, rateDemon body = .error .attributeError)
    ∧ rateDemon "" = .error .attributeError
    ∧ rateDemon "5" = .error .attributeError
    ∧ rateDemon "-2" = .error .attributeError :=
  ⟨fun _ => rfl, rfl, rfl, rfl⟩

/-- C10: `get_user` with `return_only_stats = False` returns Python's
`None` — neither a `User` nor an error — whenever the secondary
user-search reply parses to the empty sentinel, although the primary
profile lookup succeeded; only for a nonempty secondary reply are the
name/icon/icon-type fields merged and a `User` returned. -/
theorem C10_get_user :
    (∀ primary secondary : String,
      pyIntParse primary = none →
      pyIntParse secondary = none →
      firstSection secondary = "" →
      getUser false primary secondary = .ok .nothing)
    ∧ (∀ primary secondary : String,
      pyIntParse primary = none →
      pyIntParse secondary = none →
      firstSection secondary ≠ "" →
      getUser false primary secondary
        = .ok (.user (mergeUserFields (mapPairs (pySplit ":" primary))
            (mapPairs (pySplit ":" (firstSection secondary))))))
    ∧ getUser false "2:71" "" = .ok .nothing
    ∧ getUser false "2:71" "1:Alice:9:42:14:1#x"
        = .ok (.user [("2", some "71"), ("1", some "Alice"), ("9", some "42"), ("14", some "1")]) := by
  refine ⟨?_, ?_, rfl, rfl⟩
  · intro primary secondary h1 h2 hsec
    simp [getUser, httpTranslate, h1, h2, asStr, hsec, Bind.bind, Except.bind,
      Pure.pure, Except.pure]
  · intro primary secondary h1 h2 hsec
    simp [getUser, httpTranslate, h1, h2, asStr, hsec, Bind.bind, Except.bind,
      Pure.pure, Except.pure]

/-- C10 witness: `C10_get_user` applied to a successful primary reply
with an empty and with a nonempty secondary reply. -/
theorem C10_get_user_witness :
    getUser false "16:99" "" = .ok .nothing
    ∧ getUser false "16:99" "1:Bob#x"
        = .ok (.user (mergeUserFields (mapPairs (pySplit ":" "16:99"))
            (mapPairs (pySplit ":" (firstSection "1:Bob#x"))))) :=
  ⟨C10_get_user.1 "16:99" "" rfl rfl rfl,
   C10_get_user.2.1 "16:99" "1:Bob#x" rfl rfl (by decide)⟩

end GD

